import Mathlib

/-!
# Verification of the passport-nft authentication strategy

Shallow embedding of `lib/strategy.js` (class `NFTStrategy`): the constructor's
option validation and the `authenticate` engine — challenge retrieval, signature
verification, NFT balance aggregation, and the terminal success/fail/error
signalling toward the passport framework.

Modelling conventions:
* JavaScript exceptions are `Except String`; machine-irrelevant payloads
  (error objects, info objects) are modelled as their message strings.
* The web3 collaborators are parameters: `recover` models
  `web3.eth.accounts.recover`, `bal721` the result of the single
  `balanceOf(address).call()`, `bal1155` the per-token-id results of
  `balanceOf(address, id).call()`.  Per the collaborator contract, a
  successful ledger query returns a non-negative integer.
* Promise semantics are explicit: a promise that is both rejected and then
  resolved keeps the rejection (first settlement wins); a `.then` on a
  rejected promise whose rejection is never handled is recorded as an
  unhandled rejection; a promise that never settles produces no signals.
* `util.callbackify` delivers the `(err, res)` callback via
  `process.nextTick`; an exception thrown inside that callback is therefore
  NOT caught by the lexical `try` of `authenticate` and escapes as an
  uncaught exception.  This is recorded in the `uncaught` field.
-/

namespace PassportNft

/-- The two recognised token standards (`options.tokenStandard ∈ {721, 1155}`). -/
inductive TokenStandard where
  | erc721
  | erc1155
deriving DecidableEq

/-- The `{ address, nftBalance }` object built by `authenticate` (used both for
`req.user` under `autoGrantUser` and as the `userInfo` handed to `verify`). -/
structure UserRecord where
  address : String
  nftBalance : Nat
deriving DecidableEq

/-- A terminal signal issued to the passport framework:
`this.success(user, info)`, `this.fail(info)`, or `this.error(err)`. -/
inductive Signal where
  | success (user : String) (info : String)
  | fail (info : String)
  | error (err : String)
deriving DecidableEq

/-- A balance query issued to the ledger: `balanceOf(address)` for ERC-721,
`balanceOf(address, id)` for ERC-1155. -/
inductive BalanceQuery where
  | q721
  | q1155 (id : Nat)
deriving DecidableEq

/-- Settlement of the promise returned by the `checkNftBalance` wrapper:
resolved with a total, rejected with the zero-balance error, or never
settling because some individual ledger call rejected (those rejections are
unhandled — the per-id `.then` chains have no rejection handler). -/
inductive BalanceOutcome where
  | resolved (total : Nat)
  | rejectedZero (msg : String)
  | hangs (unhandled : List String)
deriving DecidableEq

/-- The message of the error passed to `rej` when the balance total is zero. -/
def zeroBalanceMsg (address : String) : String :=
  "[NFTStrategy::authenticate] " ++ address ++ " has no balance on target NFT"

/-- Rejection reasons of the individual ERC-1155 ledger calls, in token-id
order.  Each such rejection is unhandled in the source (the inner promise
executor only installs a fulfilment handler). -/
def errList (ids : List Nat) (bal1155 : Nat → Except String Nat) : List String :=
  ids.filterMap fun id =>
    match bal1155 id with
    | .error e => some e
    | .ok _ => none

/-- `totalBalance` accumulated over the `Promise.all` results when every
individual ERC-1155 query succeeded (erroring ids contribute nothing because
their promises never fulfil). -/
def okSum (ids : List Nat) (bal1155 : Nat → Except String Nat) : Nat :=
  (ids.map fun id =>
    match bal1155 id with
    | .ok n => n
    | .error _ => 0).sum

/-- The `checkNftBalance` wrapper of `authenticate`: settlement of its promise
together with the list of ledger queries it dispatches.  For ERC-721 one
query; for ERC-1155 one query per configured token id, all dispatched up
front.  A zero total calls `rej` and then `resolve`; the rejection wins.  An
individual query rejection leaves its wrapper promise pending, so
`Promise.all` never settles. -/
def checkNftBalance (std : TokenStandard) (tokenIds : List Nat) (address : String)
    (bal721 : Except String Nat) (bal1155 : Nat → Except String Nat) :
    BalanceOutcome × List BalanceQuery :=
  match std with
  | .erc721 =>
    (match bal721 with
     | .error e => .hangs [e]
     | .ok n => if n = 0 then .rejectedZero (zeroBalanceMsg address) else .resolved n,
     [.q721])
  | .erc1155 =>
    (if errList tokenIds bal1155 = [] then
       (if okSum tokenIds bal1155 = 0 then .rejectedZero (zeroBalanceMsg address)
        else .resolved (okSum tokenIds bal1155))
     else .hangs (errList tokenIds bal1155),
     tokenIds.map .q1155)

/-- Behaviour of the caller-supplied `verify` function when `authenticate`
invokes it: it may call `done(err, user, info)` exactly once and possibly throw
afterwards, throw without calling `done`, or return without doing either.
`user` carries JavaScript truthiness: `none` models a falsy user value. -/
inductive VerifyBehavior where
  | callsDone (err : Option String) (user : Option String) (info : String)
      (thenThrow : Option String)
  | throws (e : String)
  | noop
deriving DecidableEq

/-- The inner `verified(__err, user, info)` completion handler of
`authenticate`: error ⇒ `this.error`, falsy user ⇒ `this.fail`, otherwise
`this.success`. -/
def verified (err : Option String) (user : Option String) (info : String) : Signal :=
  match err with
  | some e => .error e
  | none =>
    match user with
    | none => .fail info
    | some u => .success u info

/-- Signals produced by `this._verify(...)` run inside its `try` block: a
synchronous throw is caught and converted to `this.error(err)` — including a
throw that happens after `done` was already invoked, in which case both the
`done` outcome and the error signal are issued. -/
def runVerify (vb : VerifyBehavior) : List Signal :=
  match vb with
  | .noop => []
  | .throws e => [.error e]
  | .callsDone err user info thenThrow =>
    verified err user info ::
      (match thenThrow with
       | some e => [.error e]
       | none => [])

/-- One recorded invocation of the `verify` callback: whether `req` was passed
as the first argument, and the `userInfo` object handed over. -/
structure VerifyCall where
  passedReq : Bool
  userInfo : UserRecord
deriving DecidableEq

/-- The incoming request: the two configured header fields (absent header =
`undefined` = `none`) and the mutable `user` property. -/
structure Request where
  addressHeader : Option String
  challengeHeader : Option String
  user : Option UserRecord
deriving DecidableEq

/-- The strategy state produced by the constructor that `authenticate` reads:
`_tokenStandard`, `_tokenIds`, `_key`, `_passReqToCallback`, `_autoGrantUser`.
(The two header field names are modelled by `Request` carrying the extracted
values directly; `_nftAddress`, `_customTokenABI` and the strategy name do not
influence the control flow modelled here.) -/
structure Config where
  tokenStandard : TokenStandard
  tokenIds : List Nat
  key : String
  passReqToCallback : Bool
  autoGrantUser : Bool
deriving DecidableEq

/-- JavaScript `String.prototype.toLowerCase` on an address string: lower-case
every character.  (Structurally recursive over the character list, unlike
`String.toLower`, so that concrete witnesses evaluate in the kernel.) -/
def jsToLower (s : String) : String :=
  ⟨s.data.map Char.toLower⟩

/-- The signature-verification steps inside the challenge callback:
`web3.eth.accounts.recover(key + challenge, encryptedChallenge)` followed by
the case-insensitive comparison with the claimed address.  `recover` throws on
a non-string signature (missing header), and the comparison
`address.toLowerCase()` throws when the address header is `undefined`. -/
def recoverStage (key challenge : String) (addrHeader sigHeader : Option String)
    (recover : String → String → Except String String) : Except String String :=
  match sigHeader with
  | none => .error "Error: signature must be a valid string"
  | some sig =>
    match recover (key ++ challenge) sig with
    | .error e => .error e
    | .ok resultAddress =>
      match addrHeader with
      | none => .error "TypeError: Cannot read properties of undefined (reading toLowerCase)"
      | some address =>
        if jsToLower resultAddress = jsToLower address then .ok address
        else .error ("[NFTStrategy] Address mismatch?! (result) " ++ resultAddress
          ++ " vs (param) " ++ address)

/-- Everything observable from the challenge callback onwards, when the
callback body does not throw: signals issued, ledger queries dispatched,
unhandled promise rejections, `verify` invocations, and the final `req.user`. -/
structure RunRest where
  signals : List Signal
  queries : List BalanceQuery
  unhandled : List String
  verifyCalls : List VerifyCall
  finalUser : Option UserRecord
deriving DecidableEq

/-- Body of the `(err, res = '') => {...}` challenge callback of
`authenticate`.  A thrown exception surfaces as `.error` (to be caught — or
not — by the caller depending on how the callback was invoked).  On reaching
the balance stage, the subsequent work happens in promise handlers and never
throws out of the callback: the zero-balance rejection becomes
`this.fail({ message })` via `.catch`, a resolved balance leads to the
`verify` invocation (preceded by the `autoGrantUser` assignment of
`req.user`), and an erroring ledger query leaves the attempt without any
settlement. -/
def cbBody (cfg : Config) (req : Request)
    (recover : String → String → Except String String)
    (bal721 : Except String Nat) (bal1155 : Nat → Except String Nat)
    (vb : VerifyBehavior) (r : Except String String) : Except String RunRest :=
  match r with
  | .error e => .error e
  | .ok res =>
    if res = "" then .error "[NFTStrategy::authenticate] Challenge string invalid"
    else
      match recoverStage cfg.key res req.addressHeader req.challengeHeader recover with
      | .error e => .error e
      | .ok address =>
        match checkNftBalance cfg.tokenStandard cfg.tokenIds address bal721 bal1155 with
        | (.hangs errs, qs) => .ok ⟨[], qs, errs, [], req.user⟩
        | (.rejectedZero msg, qs) => .ok ⟨[.fail msg], qs, [], [], req.user⟩
        | (.resolved total, qs) =>
          let ui : UserRecord := ⟨address, total⟩
          .ok ⟨runVerify vb, qs, [],
               [⟨cfg.passReqToCallback, ui⟩],
               if cfg.autoGrantUser then some ui else req.user⟩

/-- Runtime behaviour of the configured challenge source, as invoked by
`authenticate` via `challengeFunction(address, cb)`:
* `asyncResult r` — `_asyncGetChallenge` is true, so the function is wrapped
  with `util.callbackify` and `cb` fires on a later tick with `(err)` or
  `(null, res)`; exceptions thrown inside `cb` are uncaught.
* `syncReturn` — a synchronous source that (per its documented contract)
  takes only `address` and returns the string: it ignores `cb`, which
  therefore never fires.
* `syncThrow e` — the source throws synchronously; caught by the outer `try`.
* `syncCall r` — a callback-style synchronous source invoking `cb`
  synchronously, so exceptions thrown inside `cb` are caught by the outer
  `try`. -/
inductive ChallengeBehavior where
  | asyncResult (r : Except String String)
  | syncReturn
  | syncThrow (e : String)
  | syncCall (r : Except String String)

/-- Complete observable outcome of one `authenticate(req)` call. -/
structure AttemptResult where
  signals : List Signal
  queries : List BalanceQuery
  uncaught : Option String
  unhandled : List String
  verifyCalls : List VerifyCall
  finalReq : Request
deriving DecidableEq

/-- The `authenticate` engine of `NFTStrategy`.  The outer
`try { challengeFunction(...) } catch (error) { return this.fail(error) }`
only guards the synchronous extent of the call: an exception thrown inside an
asynchronously delivered callback escapes uncaught. -/
def authenticate (cfg : Config) (req : Request) (chal : ChallengeBehavior)
    (recover : String → String → Except String String)
    (bal721 : Except String Nat) (bal1155 : Nat → Except String Nat)
    (vb : VerifyBehavior) : AttemptResult :=
  match chal with
  | .syncThrow e => ⟨[.fail e], [], none, [], [], req⟩
  | .syncReturn => ⟨[], [], none, [], [], req⟩
  | .syncCall r =>
    match cbBody cfg req recover bal721 bal1155 vb r with
    | .error e => ⟨[.fail e], [], none, [], [], req⟩
    | .ok rest => ⟨rest.signals, rest.queries, none, rest.unhandled, rest.verifyCalls,
                   { req with user := rest.finalUser }⟩
  | .asyncResult r =>
    match cbBody cfg req recover bal721 bal1155 vb r with
    | .error e => ⟨[], [], some e, [], [], req⟩
    | .ok rest => ⟨rest.signals, rest.queries, none, rest.unhandled, rest.verifyCalls,
                   { req with user := rest.finalUser }⟩

/-- Shape of the `options.tokenIds` value: absent (or otherwise falsy), a
truthy non-Array value, or an Array of ids (possibly empty — an empty Array
is truthy in JavaScript). -/
inductive TokenIdsOpt where
  | absent
  | notArray
  | arr (ids : List Nat)
deriving DecidableEq

/-- The constructor inputs, abstracted to what its checks inspect.  The web3
and ABI fields are reduced to the truthiness the checks test for. -/
structure Options where
  web3Present : Bool
  web3EthPresent : Bool
  web3ProviderPresent : Bool
  verifyTruthy : Bool
  getChallengePresent : Bool
  getChallengeIsFunction : Bool
  tokenStandard : Option Nat
  nftAddressPresent : Bool
  nftAddressValid : Bool
  tokenIds : TokenIdsOpt
  key : Option String
  passReqToCallback : Option Bool
  autoGrantUser : Option Bool
  customTokenABIPresent : Bool
  customTokenABIIsArray : Bool
deriving DecidableEq

/-- JavaScript `a || d` for an optional string option (empty string is falsy). -/
def jsOrStr (o : Option String) (d : String) : String :=
  match o with
  | none => d
  | some s => if s = "" then d else s

/-- The ERC-1155 token-id validation of the constructor.  `!options.tokenIds`
rejects an absent value, the `instanceof Array` test rejects a truthy
non-Array — but an empty Array passes both tests. -/
def validateTokenIds (ts : Nat) (t : TokenIdsOpt) : Except String (List Nat) :=
  if ts = 1155 then
    match t with
    | .absent => .error "[NFTStrategy] options.tokenIds is required"
    | .notArray => .error "[NFTStrategy] options.tokenIds should be Array"
    | .arr ids => .ok ids
  else .ok []

/-- The `NFTStrategy` constructor: the sequence of `TypeError` checks, then the
field assignments.  `passReqToCallback` is assigned
`options.passReqToCallback || true` and `autoGrantUser` is assigned
`options.autoGrantUser || false`, with JavaScript truthiness. -/
def construct (o : Options) : Except String Config :=
  if ¬ o.web3Present then .error "[NFTStrategy] No web3 instance supplied"
  else if ¬ o.web3EthPresent then .error "[NFTStrategy] Not a valid web3 instance"
  else if ¬ o.web3ProviderPresent then
    .error "[NFTStrategy] No provider set. Please initialise web3 first."
  else if ¬ o.verifyTruthy then .error "[NFTStrategy] No verify function supplied"
  else if ¬ o.getChallengePresent then .error "[NFTStrategy] options.getChallenge is required."
  else if ¬ o.getChallengeIsFunction then
    .error "[NFTStrategy] options.getChallenge should be a function."
  else
    match o.tokenStandard with
    | none => .error "[NFTStrategy] options.tokenStandard is required"
    | some ts =>
      if ts = 0 then .error "[NFTStrategy] options.tokenStandard is required"
      else if ¬ (ts = 721 ∨ ts = 1155) then
        .error "[NFTStrategy] options.tokenStandard ERC identifier error"
      else if ¬ o.nftAddressPresent then .error "[NFTStrategy] options.nftAddress is required"
      else if ¬ o.nftAddressValid then .error "[NFTStrategy] options.nftAddress invalid address"
      else
        match validateTokenIds ts o.tokenIds with
        | .error e => .error e
        | .ok ids =>
          if o.customTokenABIPresent ∧ ¬ o.customTokenABIIsArray then
            .error "[NFTStrategy] Please check your custom ABI"
          else
            .ok { tokenStandard := if ts = 721 then .erc721 else .erc1155
                  tokenIds := ids
                  key := jsOrStr o.key "nft:auth_"
                  passReqToCallback := (o.passReqToCallback.getD false) || true
                  autoGrantUser := (o.autoGrantUser.getD false) || false }

/-! ## Derived notions used by the theorems -/

/-- The ledger queries `authenticate` dispatches once the balance stage is
reached, as a function of the configuration. -/
def balanceQueries (cfg : Config) : List BalanceQuery :=
  match cfg.tokenStandard with
  | .erc721 => [.q721]
  | .erc1155 => cfg.tokenIds.map .q1155

/-- Every ledger query relevant to the configured standard succeeds. -/
def oracleOk (cfg : Config) (bal721 : Except String Nat)
    (bal1155 : Nat → Except String Nat) : Bool :=
  match cfg.tokenStandard with
  | .erc721 => bal721.isOk
  | .erc1155 => decide (errList cfg.tokenIds bal1155 = [])

/-- The aggregate balance: the single ERC-721 balance, or the sum of the
per-id ERC-1155 balances. -/
def aggregate (cfg : Config) (bal721 : Except String Nat)
    (bal1155 : Nat → Except String Nat) : Nat :=
  match cfg.tokenStandard with
  | .erc721 =>
    match bal721 with
    | .ok n => n
    | .error _ => 0
  | .erc1155 => okSum cfg.tokenIds bal1155

/-- When every relevant ledger query succeeds and the aggregate is positive,
the balance promise resolves with the aggregate, after dispatching exactly the
configured queries. -/
theorem checkNftBalance_resolved (cfg : Config) (address : String)
    (bal721 : Except String Nat) (bal1155 : Nat → Except String Nat)
    (hOk : oracleOk cfg bal721 bal1155 = true) (hPos : 0 < aggregate cfg bal721 bal1155) :
    checkNftBalance cfg.tokenStandard cfg.tokenIds address bal721 bal1155
      = (.resolved (aggregate cfg bal721 bal1155), balanceQueries cfg) := by
  obtain ⟨std, ids, key, prc, agu⟩ := cfg
  cases std with
  | erc721 =>
    cases bal721 with
    | error e => simp [oracleOk, Except.isOk, Except.toBool] at hOk
    | ok n =>
      simp only [aggregate] at hPos
      simp [checkNftBalance, aggregate, balanceQueries, Nat.pos_iff_ne_zero.mp hPos]
  | erc1155 =>
    simp only [oracleOk, decide_eq_true_eq] at hOk
    simp only [aggregate] at hPos
    simp [checkNftBalance, aggregate, balanceQueries, hOk, Nat.pos_iff_ne_zero.mp hPos]

/-- When every relevant ledger query succeeds but the aggregate is zero, the
balance promise is rejected with the zero-balance error. -/
theorem checkNftBalance_zero (cfg : Config) (address : String)
    (bal721 : Except String Nat) (bal1155 : Nat → Except String Nat)
    (hOk : oracleOk cfg bal721 bal1155 = true) (hZero : aggregate cfg bal721 bal1155 = 0) :
    checkNftBalance cfg.tokenStandard cfg.tokenIds address bal721 bal1155
      = (.rejectedZero (zeroBalanceMsg address), balanceQueries cfg) := by
  obtain ⟨std, ids, key, prc, agu⟩ := cfg
  cases std with
  | erc721 =>
    cases bal721 with
    | error e => simp [oracleOk, Except.isOk, Except.toBool] at hOk
    | ok n =>
      simp only [aggregate] at hZero
      simp [checkNftBalance, balanceQueries, hZero]
  | erc1155 =>
    simp only [oracleOk, decide_eq_true_eq] at hOk
    simp only [aggregate] at hZero
    simp [checkNftBalance, balanceQueries, hOk, hZero]

/-- The signature stage succeeds exactly on a case-insensitive address match. -/
theorem recoverStage_ok (key c addr sig raddr : String)
    (recover : String → String → Except String String)
    (hR : recover (key ++ c) sig = .ok raddr)
    (hM : jsToLower raddr = jsToLower addr) :
    recoverStage key c (some addr) (some sig) recover = .ok addr := by
  simp [recoverStage, hR, hM]

/-- The challenge callback on a delivered, valid challenge with a matching
signature and a positive, fully-successful balance check: it reaches the
`verify` invocation with `userInfo = ⟨address, aggregate⟩`. -/
theorem cbBody_resolved (cfg : Config) (req : Request)
    (recover : String → String → Except String String)
    (bal721 : Except String Nat) (bal1155 : Nat → Except String Nat)
    (vb : VerifyBehavior) (addr sig c raddr : String)
    (hA : req.addressHeader = some addr) (hS : req.challengeHeader = some sig)
    (hc : c ≠ "") (hR : recover (cfg.key ++ c) sig = .ok raddr)
    (hM : jsToLower raddr = jsToLower addr)
    (hOk : oracleOk cfg bal721 bal1155 = true) (hPos : 0 < aggregate cfg bal721 bal1155) :
    cbBody cfg req recover bal721 bal1155 vb (.ok c)
      = .ok ⟨runVerify vb, balanceQueries cfg, [],
             [⟨cfg.passReqToCallback, ⟨addr, aggregate cfg bal721 bal1155⟩⟩],
             if cfg.autoGrantUser then some ⟨addr, aggregate cfg bal721 bal1155⟩
             else req.user⟩ := by
  have hrs : recoverStage cfg.key c req.addressHeader req.challengeHeader recover
      = .ok addr := by
    rw [hA, hS]; exact recoverStage_ok cfg.key c addr sig raddr recover hR hM
  simp only [cbBody, if_neg hc, hrs,
    checkNftBalance_resolved cfg addr bal721 bal1155 hOk hPos]

/-- Same premises, zero aggregate: the callback ends in the zero-balance
`fail`, after dispatching the configured queries; `verify` is never invoked
and `req.user` is untouched. -/
theorem cbBody_zero (cfg : Config) (req : Request)
    (recover : String → String → Except String String)
    (bal721 : Except String Nat) (bal1155 : Nat → Except String Nat)
    (vb : VerifyBehavior) (addr sig c raddr : String)
    (hA : req.addressHeader = some addr) (hS : req.challengeHeader = some sig)
    (hc : c ≠ "") (hR : recover (cfg.key ++ c) sig = .ok raddr)
    (hM : jsToLower raddr = jsToLower addr)
    (hOk : oracleOk cfg bal721 bal1155 = true) (hZero : aggregate cfg bal721 bal1155 = 0) :
    cbBody cfg req recover bal721 bal1155 vb (.ok c)
      = .ok ⟨[.fail (zeroBalanceMsg addr)], balanceQueries cfg, [], [], req.user⟩ := by
  have hrs : recoverStage cfg.key c req.addressHeader req.challengeHeader recover
      = .ok addr := by
    rw [hA, hS]; exact recoverStage_ok cfg.key c addr sig raddr recover hR hM
  simp only [cbBody, if_neg hc, hrs,
    checkNftBalance_zero cfg addr bal721 bal1155 hOk hZero]

/-- `authenticate` on the full happy path up to the `verify` invocation,
uniformly in the behaviour of `verify` and in whether the challenge was
delivered through `util.callbackify` or a synchronously-invoked callback. -/
theorem authenticate_resolved (cfg : Config) (req : Request) (chal : ChallengeBehavior)
    (recover : String → String → Except String String)
    (bal721 : Except String Nat) (bal1155 : Nat → Except String Nat)
    (vb : VerifyBehavior) (addr sig c raddr : String)
    (hA : req.addressHeader = some addr) (hS : req.challengeHeader = some sig)
    (hC : chal = .asyncResult (.ok c) ∨ chal = .syncCall (.ok c)) (hc : c ≠ "")
    (hR : recover (cfg.key ++ c) sig = .ok raddr)
    (hM : jsToLower raddr = jsToLower addr)
    (hOk : oracleOk cfg bal721 bal1155 = true) (hPos : 0 < aggregate cfg bal721 bal1155) :
    authenticate cfg req chal recover bal721 bal1155 vb
      = ⟨runVerify vb, balanceQueries cfg, none, [],
         [⟨cfg.passReqToCallback, ⟨addr, aggregate cfg bal721 bal1155⟩⟩],
         { req with user := (if cfg.autoGrantUser then
             some ⟨addr, aggregate cfg bal721 bal1155⟩ else req.user) }⟩ := by
  rcases hC with h | h <;> subst h <;>
    simp only [authenticate,
      cbBody_resolved cfg req recover bal721 bal1155 vb addr sig c raddr
        hA hS hc hR hM hOk hPos]

/-! ## Claim theorems -/

/-- Claim C1: for every request whose claimed address, signature, challenge and
ledger balance are all valid — the challenge source delivers a non-empty
challenge through the callback, the recovered signer equals the claimed
address case-insensitively, every relevant ledger query succeeds and the
aggregate balance is positive — the engine reaches the `Success` outcome
exactly once, and invokes the identity callback exactly once with a `userInfo`
whose `address` equals the claimed address and whose `nftBalance` equals the
aggregate balance, unchanged. -/
theorem c1_valid_attempt_success (cfg : Config) (req : Request)
    (chal : ChallengeBehavior) (recover : String → String → Except String String)
    (bal721 : Except String Nat) (bal1155 : Nat → Except String Nat)
    (addr sig c raddr u i : String)
    (hA : req.addressHeader = some addr) (hS : req.challengeHeader = some sig)
    (hC : chal = .asyncResult (.ok c) ∨ chal = .syncCall (.ok c)) (hc : c ≠ "")
    (hR : recover (cfg.key ++ c) sig = .ok raddr)
    (hM : jsToLower raddr = jsToLower addr)
    (hOk : oracleOk cfg bal721 bal1155 = true) (hPos : 0 < aggregate cfg bal721 bal1155) :
    (authenticate cfg req chal recover bal721 bal1155
        (.callsDone none (some u) i none)).signals = [.success u i]
    ∧ (authenticate cfg req chal recover bal721 bal1155
        (.callsDone none (some u) i none)).verifyCalls
      = [⟨cfg.passReqToCallback, ⟨addr, aggregate cfg bal721 bal1155⟩⟩] := by
  rw [authenticate_resolved cfg req chal recover bal721 bal1155
    (.callsDone none (some u) i none) addr sig c raddr hA hS hC hc hR hM hOk hPos]
  exact ⟨rfl, rfl⟩

/-- Witness for C1: a concrete ERC-1155 attempt with balances `[0, 2, 0]`
on ids `[1, 2, 3]` reaches `Success` once and hands
`⟨"0xab", 2⟩` to the identity callback. -/
theorem c1_valid_attempt_success_witness :
    (authenticate ⟨.erc1155, [1, 2, 3], "k", true, false⟩
        ⟨some "0xab", some "sig", none⟩ (.asyncResult (.ok "c"))
        (fun _ _ => .ok "0xAB") (.ok 0)
        (fun id => if id = 2 then .ok 2 else .ok 0)
        (.callsDone none (some "u") "i" none)).signals = [.success "u" "i"]
    ∧ (authenticate ⟨.erc1155, [1, 2, 3], "k", true, false⟩
        ⟨some "0xab", some "sig", none⟩ (.asyncResult (.ok "c"))
        (fun _ _ => .ok "0xAB") (.ok 0)
        (fun id => if id = 2 then .ok 2 else .ok 0)
        (.callsDone none (some "u") "i" none)).verifyCalls
      = [⟨true, ⟨"0xab", 2⟩⟩] :=
  c1_valid_attempt_success ⟨.erc1155, [1, 2, 3], "k", true, false⟩
    ⟨some "0xab", some "sig", none⟩ (.asyncResult (.ok "c"))
    (fun _ _ => .ok "0xAB") (.ok 0)
    (fun id => if id = 2 then .ok 2 else .ok 0)
    "0xab" "sig" "c" "0xAB" "u" "i"
    rfl rfl (Or.inl rfl) (by decide) rfl (by decide) (by decide) (by decide)

/-- Claim C3: under the ERC-1155 standard (signature stage passed, every
per-id query succeeding), the engine issues exactly one balance query per
configured token id, the aggregate equals the arithmetic sum of the per-id
results, the attempt succeeds precisely when the aggregate is positive — the
identity callback then receives the aggregate — and a zero aggregate is
reported through `fail` with the zero-balance message, not through the
`error` fault channel. -/
theorem c3_multi_balance_aggregate (cfg : Config) (req : Request)
    (chal : ChallengeBehavior) (recover : String → String → Except String String)
    (bal721 : Except String Nat) (bal1155 : Nat → Except String Nat)
    (addr sig c raddr u i : String)
    (hstd : cfg.tokenStandard = .erc1155)
    (hA : req.addressHeader = some addr) (hS : req.challengeHeader = some sig)
    (hC : chal = .asyncResult (.ok c) ∨ chal = .syncCall (.ok c)) (hc : c ≠ "")
    (hR : recover (cfg.key ++ c) sig = .ok raddr)
    (hM : jsToLower raddr = jsToLower addr)
    (hOk : errList cfg.tokenIds bal1155 = []) :
    (authenticate cfg req chal recover bal721 bal1155
        (.callsDone none (some u) i none)).queries = cfg.tokenIds.map .q1155
    ∧ (0 < okSum cfg.tokenIds bal1155 →
        (authenticate cfg req chal recover bal721 bal1155
            (.callsDone none (some u) i none)).signals = [.success u i]
        ∧ (authenticate cfg req chal recover bal721 bal1155
            (.callsDone none (some u) i none)).verifyCalls
          = [⟨cfg.passReqToCallback, ⟨addr, okSum cfg.tokenIds bal1155⟩⟩])
    ∧ (okSum cfg.tokenIds bal1155 = 0 →
        (authenticate cfg req chal recover bal721 bal1155
            (.callsDone none (some u) i none)).signals
          = [.fail (zeroBalanceMsg addr)]) := by
  have hOk' : oracleOk cfg bal721 bal1155 = true := by
    simp [oracleOk, hstd, hOk]
  have hAgg : aggregate cfg bal721 bal1155 = okSum cfg.tokenIds bal1155 := by
    simp [aggregate, hstd]
  have hQ : balanceQueries cfg = cfg.tokenIds.map .q1155 := by
    simp [balanceQueries, hstd]
  rcases Nat.eq_zero_or_pos (okSum cfg.tokenIds bal1155) with hz | hp
  · have hrw := cbBody_zero cfg req recover bal721 bal1155
      (.callsDone none (some u) i none) addr sig c raddr hA hS hc hR hM hOk'
      (hAgg.trans hz)
    refine ⟨?_, fun hp => absurd hz (by omega), fun _ => ?_⟩ <;>
      rcases hC with h | h <;> subst h <;>
        simp [authenticate, hrw, hQ]
  · have hrw := authenticate_resolved cfg req chal recover bal721 bal1155
      (.callsDone none (some u) i none) addr sig c raddr hA hS hC hc hR hM hOk'
      (hAgg ▸ hp)
    rw [hrw]
    exact ⟨hQ, fun _ => ⟨rfl, by rw [hAgg]⟩, fun hz => absurd hz (by omega)⟩

/-- Witness for C3: ids `[1, 2, 3]` with per-id balances `[0, 2, 0]` — three
queries issued, aggregate `2`, and the attempt succeeds with the callback
receiving balance `2`. -/
theorem c3_multi_balance_aggregate_witness :
    (authenticate ⟨.erc1155, [1, 2, 3], "k", true, false⟩
        ⟨some "0xab", some "sig", none⟩ (.asyncResult (.ok "c"))
        (fun _ _ => .ok "0xab") (.ok 0)
        (fun id => if id = 2 then .ok 2 else .ok 0)
        (.callsDone none (some "u") "i" none)).queries
      = [.q1155 1, .q1155 2, .q1155 3]
    ∧ (0 < okSum [1, 2, 3] (fun id => if id = 2 then .ok 2 else .ok 0) →
        (authenticate ⟨.erc1155, [1, 2, 3], "k", true, false⟩
            ⟨some "0xab", some "sig", none⟩ (.asyncResult (.ok "c"))
            (fun _ _ => .ok "0xab") (.ok 0)
            (fun id => if id = 2 then .ok 2 else .ok 0)
            (.callsDone none (some "u") "i" none)).signals = [.success "u" "i"]
        ∧ (authenticate ⟨.erc1155, [1, 2, 3], "k", true, false⟩
            ⟨some "0xab", some "sig", none⟩ (.asyncResult (.ok "c"))
            (fun _ _ => .ok "0xab") (.ok 0)
            (fun id => if id = 2 then .ok 2 else .ok 0)
            (.callsDone none (some "u") "i" none)).verifyCalls
          = [⟨true, ⟨"0xab", okSum [1, 2, 3]
              (fun id => if id = 2 then .ok 2 else .ok 0)⟩⟩])
    ∧ (okSum [1, 2, 3] (fun id => if id = 2 then .ok 2 else .ok 0) = 0 →
        (authenticate ⟨.erc1155, [1, 2, 3], "k", true, false⟩
            ⟨some "0xab", some "sig", none⟩ (.asyncResult (.ok "c"))
            (fun _ _ => .ok "0xab") (.ok 0)
            (fun id => if id = 2 then .ok 2 else .ok 0)
            (.callsDone none (some "u") "i" none)).signals
          = [.fail (zeroBalanceMsg "0xab")]) :=
  c3_multi_balance_aggregate ⟨.erc1155, [1, 2, 3], "k", true, false⟩
    ⟨some "0xab", some "sig", none⟩ (.asyncResult (.ok "c"))
    (fun _ _ => .ok "0xab") (.ok 0)
    (fun id => if id = 2 then .ok 2 else .ok 0)
    "0xab" "sig" "c" "0xab" "u" "i"
    rfl rfl rfl (Or.inl rfl) (by decide) rfl rfl (by decide)

/-- Claim C8: when the attempt has reached the identity callback and the
callback signals completion with an error — `done(err, ...)` with `err`
truthy — or throws synchronously, the engine issues the `error` fault signal,
which is a different signal constructor from the `fail` rejection signal. -/
theorem c8_callback_fault_distinct (cfg : Config) (req : Request)
    (chal : ChallengeBehavior) (recover : String → String → Except String String)
    (bal721 : Except String Nat) (bal1155 : Nat → Except String Nat)
    (vb : VerifyBehavior) (addr sig c raddr e : String)
    (hA : req.addressHeader = some addr) (hS : req.challengeHeader = some sig)
    (hC : chal = .asyncResult (.ok c) ∨ chal = .syncCall (.ok c)) (hc : c ≠ "")
    (hR : recover (cfg.key ++ c) sig = .ok raddr)
    (hM : jsToLower raddr = jsToLower addr)
    (hOk : oracleOk cfg bal721 bal1155 = true)
    (hPos : 0 < aggregate cfg bal721 bal1155)
    (hV : (∃ usr info, vb = .callsDone (some e) usr info none) ∨ vb = .throws e) :
    (authenticate cfg req chal recover bal721 bal1155 vb).signals = [.error e]
    ∧ ∀ info, (Signal.error e) ≠ (Signal.fail info) := by
  rw [authenticate_resolved cfg req chal recover bal721 bal1155 vb addr sig c raddr
    hA hS hC hc hR hM hOk hPos]
  refine ⟨?_, fun info h => Signal.noConfusion h⟩
  rcases hV with ⟨usr, info, h⟩ | h <;> subst h <;> rfl

/-- Witness for C8: a concrete attempt whose identity callback reports
`done("db down", ...)` ends in the single fault signal `error "db down"`. -/
theorem c8_callback_fault_distinct_witness :
    (authenticate ⟨.erc721, [], "k", true, false⟩
        ⟨some "0xab", some "sig", none⟩ (.asyncResult (.ok "c"))
        (fun _ _ => .ok "0xab") (.ok 3) (fun _ => .ok 0)
        (.callsDone (some "db down") none "i" none)).signals = [.error "db down"]
    ∧ ∀ info, (Signal.error "db down") ≠ (Signal.fail info) :=
  c8_callback_fault_distinct ⟨.erc721, [], "k", true, false⟩
    ⟨some "0xab", some "sig", none⟩ (.asyncResult (.ok "c"))
    (fun _ _ => .ok "0xab") (.ok 3) (fun _ => .ok 0)
    (.callsDone (some "db down") none "i" none)
    "0xab" "sig" "c" "0xab" "db down"
    rfl rfl (Or.inl rfl) (by decide) rfl rfl (by decide) (by decide)
    (Or.inl ⟨none, "i", rfl⟩)

/-- On every non-throwing run of the challenge callback, either `verify` is
never invoked and `req.user` is left untouched, or `verify` is invoked exactly
once and `req.user` is set to the callback's `userInfo` precisely when
`autoGrantUser` is on. -/
theorem cbBody_frame (cfg : Config) (req : Request)
    (recover : String → String → Except String String)
    (bal721 : Except String Nat) (bal1155 : Nat → Except String Nat)
    (vb : VerifyBehavior) (r : Except String String) (rest : RunRest)
    (h : cbBody cfg req recover bal721 bal1155 vb r = .ok rest) :
    (rest.verifyCalls = [] ∧ rest.finalUser = req.user)
    ∨ (∃ ui, rest.verifyCalls = [⟨cfg.passReqToCallback, ui⟩]
        ∧ rest.finalUser = (if cfg.autoGrantUser then some ui else req.user)) := by
  rcases r with e | res
  · simp [cbBody] at h
  · simp only [cbBody] at h
    split at h
    · simp at h
    · split at h
      · simp at h
      · split at h
        · rename_i errs qs heq
          rw [Except.ok.injEq] at h
          subst h
          exact Or.inl ⟨rfl, rfl⟩
        · rename_i msg qs heq
          rw [Except.ok.injEq] at h
          subst h
          exact Or.inl ⟨rfl, rfl⟩
        · rw [Except.ok.injEq] at h
          subst h
          exact Or.inr ⟨_, rfl, rfl⟩

/-- Claim C10: `authenticate` never modifies the header fields of the request;
when auto-grant is disabled it never writes the request's `user` field; and
when auto-grant is enabled, any run that invokes the identity callback has set
`req.user` to exactly the `userInfo` object handed to the callback before the
invocation, an assignment that persists regardless of what the callback
subsequently reports. -/
theorem c10_auto_grant_frame (cfg : Config) (req : Request)
    (chal : ChallengeBehavior) (recover : String → String → Except String String)
    (bal721 : Except String Nat) (bal1155 : Nat → Except String Nat)
    (vb : VerifyBehavior) :
    (authenticate cfg req chal recover bal721 bal1155 vb).finalReq.addressHeader
      = req.addressHeader
    ∧ (authenticate cfg req chal recover bal721 bal1155 vb).finalReq.challengeHeader
      = req.challengeHeader
    ∧ (cfg.autoGrantUser = false →
        (authenticate cfg req chal recover bal721 bal1155 vb).finalReq.user = req.user)
    ∧ (cfg.autoGrantUser = true →
        ∀ vc ∈ (authenticate cfg req chal recover bal721 bal1155 vb).verifyCalls,
          (authenticate cfg req chal recover bal721 bal1155 vb).finalReq.user
            = some vc.userInfo) := by
  cases chal with
  | syncThrow e => exact ⟨rfl, rfl, fun _ => rfl, fun _ vc hvc => absurd hvc (by simp [authenticate])⟩
  | syncReturn => exact ⟨rfl, rfl, fun _ => rfl, fun _ vc hvc => absurd hvc (by simp [authenticate])⟩
  | syncCall r =>
    cases hcb : cbBody cfg req recover bal721 bal1155 vb r with
    | error e => simp [authenticate, hcb]
    | ok rest =>
      rcases cbBody_frame cfg req recover bal721 bal1155 vb r rest hcb with
        ⟨hvc, hfu⟩ | ⟨ui, hvc, hfu⟩
      · simp [authenticate, hcb, hvc, hfu]
      · refine ⟨by simp [authenticate, hcb], by simp [authenticate, hcb], ?_, ?_⟩
        · intro hag
          simp [authenticate, hcb, hfu, hag]
        · intro hag vc hvc'
          simp only [authenticate, hcb] at hvc' ⊢
          rw [hvc] at hvc'
          rcases List.mem_singleton.mp hvc' with rfl
          simp [hfu, hag]
  | asyncResult r =>
    cases hcb : cbBody cfg req recover bal721 bal1155 vb r with
    | error e => simp [authenticate, hcb]
    | ok rest =>
      rcases cbBody_frame cfg req recover bal721 bal1155 vb r rest hcb with
        ⟨hvc, hfu⟩ | ⟨ui, hvc, hfu⟩
      · simp [authenticate, hcb, hvc, hfu]
      · refine ⟨by simp [authenticate, hcb], by simp [authenticate, hcb], ?_, ?_⟩
        · intro hag
          simp [authenticate, hcb, hfu, hag]
        · intro hag vc hvc'
          simp only [authenticate, hcb] at hvc' ⊢
          rw [hvc] at hvc'
          rcases List.mem_singleton.mp hvc' with rfl
          simp [hfu, hag]

/-- Witness for C10: with auto-grant enabled, even a run whose identity
callback reports an error leaves `req.user = ⟨"0xab", 2⟩`; with auto-grant
disabled, `req.user` stays `none`. -/
theorem c10_auto_grant_frame_witness :
    (authenticate ⟨.erc1155, [1, 2], "k", true, true⟩
        ⟨some "0xab", some "sig", none⟩ (.asyncResult (.ok "c"))
        (fun _ _ => .ok "0xab") (.ok 0) (fun _ => .ok 1)
        (.callsDone (some "db down") none "i" none)).finalReq.user
      = some ⟨"0xab", 2⟩
    ∧ (authenticate ⟨.erc1155, [1, 2], "k", true, false⟩
        ⟨some "0xab", some "sig", none⟩ (.asyncResult (.ok "c"))
        (fun _ _ => .ok "0xab") (.ok 0) (fun _ => .ok 1)
        (.callsDone (some "db down") none "i" none)).finalReq.user = none := by
  constructor
  · exact (c10_auto_grant_frame ⟨.erc1155, [1, 2], "k", true, true⟩
      ⟨some "0xab", some "sig", none⟩ (.asyncResult (.ok "c"))
      (fun _ _ => .ok "0xab") (.ok 0) (fun _ => .ok 1)
      (.callsDone (some "db down") none "i" none)).2.2.2 rfl
      ⟨true, ⟨"0xab", 2⟩⟩ (by decide)
  · exact (c10_auto_grant_frame ⟨.erc1155, [1, 2], "k", true, false⟩
      ⟨some "0xab", some "sig", none⟩ (.asyncResult (.ok "c"))
      (fun _ _ => .ok "0xab") (.ok 0) (fun _ => .ok 1)
      (.callsDone (some "db down") none "i" none)).2.2.1 rfl

/-- Counterexample to claim C5 as stated: a fully valid options object with
`tokenStandard = 1155` and an EMPTY `tokenIds` Array is accepted by the
constructor — `!options.tokenIds` is false for `[]` (an empty Array is truthy
in JavaScript) and `[] instanceof Array` holds, so no `TypeError` is raised. -/
theorem c5_empty_token_ids_accepted :
    (construct ⟨true, true, true, true, true, true, some 1155, true, true,
        .arr [], none, none, none, false, false⟩).isOk = true := by decide

/-- Claim C5, amended: with `tokenStandard = 1155`, a constructor call whose
`tokenIds` is absent (or otherwise falsy) or is a truthy non-Array value
raises a `TypeError` synchronously; an empty Array, however, is accepted and
the strategy proceeds to serve requests (every attempt then failing the
balance check with a zero aggregate). -/
theorem c5_absent_or_nonarray_token_ids_rejected (o : Options)
    (hts : o.tokenStandard = some 1155)
    (hids : o.tokenIds = .absent ∨ o.tokenIds = .notArray) :
    (construct o).isOk = false := by
  obtain ⟨w3, weth, wprov, vfy, gcp, gcf, ts, nfp, nfv, tids, key, prc, agu, abip, abia⟩ := o
  dsimp only at hts hids
  subst hts
  rcases hids with h | h <;> subst h <;>
    cases w3 <;> cases weth <;> cases wprov <;> cases vfy <;> cases gcp <;> cases gcf <;>
      cases nfp <;> cases nfv <;> cases abip <;> cases abia <;> rfl

/-- Witness for the amended C5: absent `tokenIds` under `tokenStandard = 1155`
is rejected. -/
theorem c5_absent_or_nonarray_token_ids_rejected_witness :
    (construct ⟨true, true, true, true, true, true, some 1155, true, true,
        .absent, none, none, none, false, false⟩).isOk = false :=
  c5_absent_or_nonarray_token_ids_rejected
    ⟨true, true, true, true, true, true, some 1155, true, true,
        .absent, none, none, none, false, false⟩ rfl (Or.inl rfl)

/-- Claim C2, evaluated at the failing input.  With an asynchronous challenge
source and a recovered signer different from the claimed address, the
`Address mismatch` exception is thrown inside the `process.nextTick`-delivered
callback, outside the lexical `try` of `authenticate`: the engine emits NO
`fail` signal (it never reaches `Rejected` — the exception escapes uncaught),
although, as the claim also states, no balance query is ever issued.  With a
synchronously invoked challenge callback the mismatch IS converted to `fail`
with no query, and a missing signature header likewise rejects without any
ledger call. -/
theorem c2_mismatch_rejection_eval :
    ((authenticate ⟨.erc1155, [1, 2, 3], "k", true, false⟩
        ⟨some "0xab", some "sig", none⟩ (.asyncResult (.ok "c"))
        (fun _ _ => .ok "0xcd") (.ok 0) (fun _ => .ok 5) .noop).signals = []
      ∧ (authenticate ⟨.erc1155, [1, 2, 3], "k", true, false⟩
          ⟨some "0xab", some "sig", none⟩ (.asyncResult (.ok "c"))
          (fun _ _ => .ok "0xcd") (.ok 0) (fun _ => .ok 5) .noop).queries = []
      ∧ (authenticate ⟨.erc1155, [1, 2, 3], "k", true, false⟩
          ⟨some "0xab", some "sig", none⟩ (.asyncResult (.ok "c"))
          (fun _ _ => .ok "0xcd") (.ok 0) (fun _ => .ok 5) .noop).uncaught
        = some ("[NFTStrategy] Address mismatch?! (result) 0xcd vs (param) 0xab"))
    ∧ ((authenticate ⟨.erc1155, [1, 2, 3], "k", true, false⟩
          ⟨some "0xab", some "sig", none⟩ (.syncCall (.ok "c"))
          (fun _ _ => .ok "0xcd") (.ok 0) (fun _ => .ok 5) .noop).signals
        = [.fail ("[NFTStrategy] Address mismatch?! (result) 0xcd vs (param) 0xab")]
      ∧ (authenticate ⟨.erc1155, [1, 2, 3], "k", true, false⟩
          ⟨some "0xab", some "sig", none⟩ (.syncCall (.ok "c"))
          (fun _ _ => .ok "0xcd") (.ok 0) (fun _ => .ok 5) .noop).queries = [])
    ∧ ((authenticate ⟨.erc1155, [1, 2, 3], "k", true, false⟩
          ⟨some "0xab", none, none⟩ (.syncCall (.ok "c"))
          (fun _ _ => .ok "0xab") (.ok 0) (fun _ => .ok 5) .noop).signals
        = [.fail "Error: signature must be a valid string"]
      ∧ (authenticate ⟨.erc1155, [1, 2, 3], "k", true, false⟩
          ⟨some "0xab", none, none⟩ (.syncCall (.ok "c"))
          (fun _ _ => .ok "0xab") (.ok 0) (fun _ => .ok 5) .noop).queries = []) := by
  decide

/-- Claim C4, evaluated at the failing input.  Under ERC-1155 with ids
`[1, 2]` where the query for id 1 errors and the one for id 2 succeeds, the
engine emits NO terminal signal at all — not the oracle-fault (`error`)
outcome the claim requires: the erroring call's rejection is unhandled (the
per-id promise executor installs no rejection handler), its wrapper promise
never settles and `Promise.all` hangs.  Both queries are still dispatched,
and no success or aggregate is produced from the surviving id alone. -/
theorem c4_query_error_no_outcome_eval :
    (authenticate ⟨.erc1155, [1, 2], "k", true, false⟩
        ⟨some "0xab", some "sig", none⟩ (.syncCall (.ok "c"))
        (fun _ _ => .ok "0xab") (.ok 0)
        (fun id => if id = 1 then .error "network fault" else .ok 5)
        .noop).signals = []
    ∧ (authenticate ⟨.erc1155, [1, 2], "k", true, false⟩
        ⟨some "0xab", some "sig", none⟩ (.syncCall (.ok "c"))
        (fun _ _ => .ok "0xab") (.ok 0)
        (fun id => if id = 1 then .error "network fault" else .ok 5)
        .noop).unhandled = ["network fault"]
    ∧ (authenticate ⟨.erc1155, [1, 2], "k", true, false⟩
        ⟨some "0xab", some "sig", none⟩ (.syncCall (.ok "c"))
        (fun _ _ => .ok "0xab") (.ok 0)
        (fun id => if id = 1 then .error "network fault" else .ok 5)
        .noop).queries = [.q1155 1, .q1155 2]
    ∧ (authenticate ⟨.erc1155, [1, 2], "k", true, false⟩
        ⟨some "0xab", some "sig", none⟩ (.syncCall (.ok "c"))
        (fun _ _ => .ok "0xab") (.ok 0)
        (fun id => if id = 1 then .error "network fault" else .ok 5)
        .noop).verifyCalls = [] := by
  decide

/-- Claim C6, evaluated at the failing input.  When the configured challenge
source is asynchronous, an exception thrown by signature recovery (malformed
signature) is NOT caught: `util.callbackify` delivers the callback through
`process.nextTick`, so the rethrow inside the callback escapes the lexical
`try` of `authenticate` as an uncaught exception and no verification-failure
signal is emitted.  The same exception under a synchronously invoked
challenge callback is caught and converted to `fail`, exhibiting the
divergence. -/
theorem c6_async_recover_exception_escapes_eval :
    ((authenticate ⟨.erc1155, [1, 2, 3], "k", true, false⟩
        ⟨some "0xab", some "badsig", none⟩ (.asyncResult (.ok "c"))
        (fun _ _ => .error "Error: Invalid signature") (.ok 0) (fun _ => .ok 5)
        .noop).signals = []
      ∧ (authenticate ⟨.erc1155, [1, 2, 3], "k", true, false⟩
          ⟨some "0xab", some "badsig", none⟩ (.asyncResult (.ok "c"))
          (fun _ _ => .error "Error: Invalid signature") (.ok 0) (fun _ => .ok 5)
          .noop).uncaught = some "Error: Invalid signature")
    ∧ ((authenticate ⟨.erc1155, [1, 2, 3], "k", true, false⟩
          ⟨some "0xab", some "badsig", none⟩ (.syncCall (.ok "c"))
          (fun _ _ => .error "Error: Invalid signature") (.ok 0) (fun _ => .ok 5)
          .noop).signals = [.fail "Error: Invalid signature"]
      ∧ (authenticate ⟨.erc1155, [1, 2, 3], "k", true, false⟩
          ⟨some "0xab", some "badsig", none⟩ (.syncCall (.ok "c"))
          (fun _ _ => .error "Error: Invalid signature") (.ok 0) (fun _ => .ok 5)
          .noop).uncaught = none) := by
  decide

/-- Claim C7, evaluated at the failing input.  An options object explicitly
setting `passReqToCallback = false` still yields a strategy whose
`_passReqToCallback` is `true` (`options.passReqToCallback || true` is always
`true`), so the identity callback is invoked WITH the request as first
argument even though the flag was unset — contradicting the claim (and the
source's own usage comment) that `false` selects the `(userInfo, done)`
shape. -/
theorem c7_pass_req_flag_ignored_eval :
    construct ⟨true, true, true, true, true, true, some 721, true, true,
        .absent, none, some false, none, false, false⟩
      = .ok ⟨.erc721, [], "nft:auth_", true, false⟩
    ∧ (authenticate ⟨.erc721, [], "nft:auth_", true, false⟩
        ⟨some "0xab", some "sig", none⟩ (.asyncResult (.ok "c"))
        (fun _ _ => .ok "0xab") (.ok 1) (fun _ => .ok 0)
        (.callsDone none (some "u") "i" none)).verifyCalls
      = [⟨true, ⟨"0xab", 1⟩⟩] := by
  exact ⟨rfl, by decide⟩

/-- Claim C9, evaluated at the failing input.  An identity callback that first
invokes `done(null, user)` and then throws makes the engine emit TWO terminal
signals — `success` from `verified`, then `error` from the `catch` around
`this._verify` — violating the exactly-one-signal requirement.  (Other
violating runs exist as well: a challenge source that never invokes its
callback, an async challenge delivery whose callback throws, or an erroring
ledger query all end the attempt with zero signals.) -/
theorem c9_done_then_throw_double_signal_eval :
    (authenticate ⟨.erc721, [], "k", true, false⟩
        ⟨some "0xab", some "sig", none⟩ (.asyncResult (.ok "c"))
        (fun _ _ => .ok "0xab") (.ok 3) (fun _ => .ok 0)
        (.callsDone none (some "u") "i" (some "boom"))).signals
      = [.success "u" "i", .error "boom"]
    ∧ (authenticate ⟨.erc721, [], "k", true, false⟩
        ⟨some "0xab", some "sig", none⟩ (.asyncResult (.ok "c"))
        (fun _ _ => .ok "0xab") (.ok 3) (fun _ => .ok 0)
        (.callsDone none (some "u") "i" (some "boom"))).signals.length = 2 := by
  decide

end PassportNft
